import Mathlib

/-!
Verification of the CityTwin evaluation core (src/app1.py).

The embedded functions mirror the Python source:
* `haversine_km`       — great-circle distance (spherical Earth, R = 6371 km);
* `evaluate_location`  — per-placement pros/cons heuristic generator;
* `analyze_perimeter`  — radius-bounded aggregation around a center point;
* `add_object`, `delete_selected`, `move_selected` — registry operations on
  the session state (`objects` list plus optional `selected_id`).

Coordinates and parameters are modelled over `ℝ` (the Python code computes
with floats and real trigonometric functions).  Python's truthiness test
`if not sid` on the selected identifier is modelled faithfully: it fires both
when the identifier is unset and when it is the empty string.
-/

namespace CityTwin

noncomputable section

/-- A placed city object: opaque id, category string, coordinate in degrees,
and a category-specific parameter table (Python dict, modelled as an
association list; `paramGet` mirrors `params.get(key, 0)`). -/
structure CityObject where
  id : String
  obj_type : String
  lat : ℝ
  lon : ℝ
  params : List (String × ℝ)

/-- `params.get(key, 0)` from the Python source. -/
def paramGet (ps : List (String × ℝ)) (k : String) : ℝ :=
  (ps.lookup k).getD 0

/-- `math.radians`: degrees to radians. -/
def radians (x : ℝ) : ℝ :=
  x * (Real.pi / 180)

/-- `haversine_km` from the source: haversine great-circle distance with mean
Earth radius 6371 km. -/
def haversine_km (lat1 lon1 lat2 lon2 : ℝ) : ℝ :=
  let R : ℝ := 6371.0
  let p1 := radians lat1
  let p2 := radians lat2
  let dphi := radians (lat2 - lat1)
  let dl := radians (lon2 - lon1)
  let a := Real.sin (dphi / 2) ^ 2 + Real.cos p1 * Real.cos p2 * Real.sin (dl / 2) ^ 2
  2 * R * Real.arcsin (Real.sqrt a)

/-- `nearest(t)` inside `evaluate_location`: minimum distance from the
candidate point to an object of type `t`, or `none` when the type is absent. -/
def nearest (lat lon : ℝ) (objs : List CityObject) (t : String) : Option ℝ :=
  ((objs.filter (fun o => o.obj_type == t)).map
    (fun o => haversine_km lat lon o.lat o.lon)).min?

/-- The Python test `x is not None and x <= t` on an optional distance. -/
def withinOpt (x? : Option ℝ) (t : ℝ) : Prop :=
  match x? with
  | none => False
  | some d => d ≤ t

instance instDecidableWithinOpt (x? : Option ℝ) (t : ℝ) : Decidable (withinOpt x? t) :=
  match x? with
  | none => inferInstanceAs (Decidable False)
  | some d => inferInstanceAs (Decidable (d ≤ t))

/-- The fixed first-point message returned when the registry is empty. -/
def first_point_msg : String :=
  "Это первая точка — удобно начать моделирование с базы района."

/-- The fixed jobs-benefit supporting statement of the industry branch. -/
def jobs_msg : String :=
  "Плюс: создаёт рабочие места и экономическую активность."

/-- The fixed air-quality concerning statement of the industry branch. -/
def air_quality_msg : String :=
  "Минус: ухудшает качество воздуха вокруг (если нет фильтров)."

/-- The generic fallback statement appended when no rule produced a support. -/
def fallback_msg : String :=
  "Расположение выглядит допустимым для MVP-модели."

/-- `evaluate_location` from the source: given a candidate category, a point
and the list of other objects, produce the (supporting, concerning) statement
lists.  Each rule of the Python code appends at most one statement to each
list, so sequential appends are embedded as ordered concatenation. -/
def evaluate_location (obj_type : String) (lat lon : ℝ) (objs : List CityObject) :
    List String × List String :=
  let near_home := nearest lat lon objs "Жилой комплекс"
  let near_school := nearest lat lon objs "Школа"
  let near_park := nearest lat lon objs "Парк"
  let near_ind := nearest lat lon objs "Промышленный объект"
  if objs.isEmpty then
    ([first_point_msg], [])
  else
    let pm : List String × List String :=
      if obj_type = "Жилой комплекс" then
        let r1 : List String × List String :=
          match near_school with
          | none => ([], ["Поблизости нет школ — возможна перегрузка инфраструктуры."])
          | some d =>
            if d ≤ 1.5 then (["Школа относительно рядом — лучше доступность."], [])
            else ([], ["Школа далеко — возрастёт нагрузка на транспорт."])
        let r2 : List String × List String :=
          if withinOpt near_park 1.2 then (["Рядом парк — выше комфорт и качество среды."], [])
          else ([], ["Нет парка рядом — стоит добавить зелёную зону."])
        let r3 : List String × List String :=
          if withinOpt near_ind 2.0 then ([], ["Слишком близко к промзоне — риск хуже по экологии."])
          else (["Достаточно далеко от промзоны — лучше по экологии."], [])
        (r1.1 ++ r2.1 ++ r3.1, r1.2 ++ r2.2 ++ r3.2)
      else if obj_type = "Школа" then
        let r1 : List String × List String :=
          match near_home with
          | none => ([], ["Нет жилья рядом — школа может быть “в пустоте”."])
          | some d =>
            if d ≤ 1.5 then (["Рядом жильё — школа будет востребована и удобна."], [])
            else ([], ["Жильё далеко — детям придётся ездить, вырастет трафик."])
        let r2 : List String × List String :=
          if withinOpt near_ind 2.5 then ([], ["Близко к промзоне — нежелательно для школьной среды."])
          else (["Подальше от промзоны — лучше для здоровья/комфорта."], [])
        (r1.1 ++ r2.1, r1.2 ++ r2.2)
      else if obj_type = "Парк" then
        let r1 : List String × List String :=
          if withinOpt near_home 1.5 then (["Рядом жильё — парк даст максимальную пользу жителям."], [])
          else (["Парк улучшит район, но рядом с жильём эффект сильнее."], [])
        let r2 : List String × List String :=
          if withinOpt near_ind 2.0 then
            (["Рядом промзона — парк частично компенсирует эффект загрязнения."],
             ["Но шум/выбросы всё равно могут ощущаться."])
          else (["Чистая зона — парк усилит комфорт и привлекательность."], [])
        (r1.1 ++ r2.1, r1.2 ++ r2.2)
      else if obj_type = "Промышленный объект" then
        let r1 : List String × List String :=
          if withinOpt near_home 3.0 then ([], ["Близко к жилью — риски по экологии и жалобы жителей."])
          else (["Далеко от жилья — меньше конфликтов по экологии."], [])
        let r2 : List String × List String :=
          if withinOpt near_school 3.5 then ([], ["Близко к школе — нежелательное соседство."])
          else (["Далеко от школ — лучше для социальной среды."], [])
        (r1.1 ++ r2.1 ++ [jobs_msg], r1.2 ++ r2.2 ++ [air_quality_msg])
      else if obj_type = "Спорткомплекс" then
        let r1 : List String × List String :=
          if withinOpt near_home 2.0 then (["Рядом жильё — удобный доступ для посетителей."], [])
          else ([], ["Далеко от жилья — посещаемость может быть ниже."])
        let r2 : List String × List String :=
          if withinOpt near_park 1.5 then (["Рядом парк — хорошая связка для спорта и отдыха."], [])
          else (["Можно дополнить рядом парком для более комфортной зоны."], [])
        (r1.1 ++ r2.1, r1.2 ++ r2.2)
      else if obj_type = "Мост" then
        (["Мост обычно улучшает связанность и снижает объезды."],
         ["Если нет разрыва маршрутов, эффект может быть слабее (в MVP это упрощено)."])
      else ([], [])
    if pm.1.isEmpty then ([fallback_msg], pm.2) else pm

/-- The selection loop of `analyze_perimeter`: keep each object whose distance
to the center is at most the radius, paired with that distance, in input
order. -/
def withinRadius (lat lon r : ℝ) : List CityObject → List (CityObject × ℝ)
  | [] => []
  | o :: rest =>
    let d := haversine_km lat lon o.lat o.lon
    if d ≤ r then (o, d) :: withinRadius lat lon r rest
    else withinRadius lat lon r rest

/-- Comparison by the distance component, used for the ascending sort of the
`around` list (`sorted(around, key=lambda x: x[1])`). -/
def distLE (x y : CityObject × ℝ) : Prop :=
  x.2 ≤ y.2

instance : IsTotal (CityObject × ℝ) distLE :=
  ⟨fun a b => le_total a.2 b.2⟩

instance : IsTrans (CityObject × ℝ) distLE :=
  ⟨fun _ _ _ h1 h2 => le_trans h1 h2⟩

instance instDecidableDistLE : DecidableRel distLE :=
  fun a b => inferInstanceAs (Decidable (a.2 ≤ b.2))

/-- The dictionary returned by `analyze_perimeter`. -/
structure PerimeterResult where
  around : List (CityObject × ℝ)
  counts : String → ℕ
  residents : ℝ
  school_capacity : ℝ
  school_gap : ℝ
  industry_emission : ℝ
  parks : ℕ
  radius_km : ℝ

/-- `analyze_perimeter` from the source: objects within `radius_km` of the
center paired with their distance (ascending by distance), per-category
counts, aggregate residents, school capacity, adjusted industrial emission,
park count, and the derived school gap. -/
def analyze_perimeter (lat lon : ℝ) (objs : List CityObject) (radius_km : ℝ) :
    PerimeterResult :=
  let around := withinRadius lat lon radius_km objs
  let counts : String → ℕ := fun t => around.countP (fun p => p.1.obj_type == t)
  let residents :=
    ((around.filter (fun p => p.1.obj_type == "Жилой комплекс")).map
      (fun p => paramGet p.1.params "residents")).sum
  let school_capacity :=
    ((around.filter (fun p => p.1.obj_type == "Школа")).map
      (fun p => paramGet p.1.params "capacity")).sum
  let industry_emission :=
    ((around.filter (fun p => p.1.obj_type == "Промышленный объект")).map
      (fun p => paramGet p.1.params "emission" * (1.0 - paramGet p.1.params "filters_eff"))).sum
  let parks := counts "Парк"
  let school_need := residents * 0.25
  let school_gap := school_need - school_capacity
  { around := List.insertionSort distLE around
    counts := counts
    residents := residents
    school_capacity := school_capacity
    school_gap := school_gap
    industry_emission := industry_emission
    parks := parks
    radius_km := radius_km }

/-- The mutable session registry: the ordered object list plus the optional
selected identifier.  At most one identifier is selected by construction
(`selected_id` is an `Option`). -/
structure RegState where
  objects : List CityObject
  selected_id : Option String

/-- `DEFAULT_PARAMS` table from the source. -/
def DEFAULT_PARAMS (t : String) : List (String × ℝ) :=
  if t = "Жилой комплекс" then [("residents", 1500)]
  else if t = "Школа" then [("capacity", 800)]
  else if t = "Парк" then [("green_factor", 0.25)]
  else if t = "Спорткомплекс" then [("visitors_per_day", 500)]
  else if t = "Промышленный объект" then [("emission", 120.0), ("filters_eff", 0.0)]
  else if t = "Мост" then [("capacity_bonus", 200)]
  else []

/-- `add_object` from the source.  The fresh identifier produced by `new_id()`
(a random 10-character uuid fragment, in particular never empty) is passed in
explicitly. -/
def add_object (st : RegState) (new_id : String) (obj_type : String) (lat lon : ℝ) :
    RegState :=
  let o : CityObject :=
    { id := new_id, obj_type := obj_type, lat := lat, lon := lon
      params := DEFAULT_PARAMS obj_type }
  { objects := st.objects ++ [o], selected_id := some o.id }

/-- `delete_selected` from the source: drop every object whose id equals the
selected id, reselect the first remaining object (or clear the selection),
and report whether the list shrank.  `if not sid` fires for an unset id and
for the empty string. -/
def delete_selected (st : RegState) : RegState × Bool :=
  match st.selected_id with
  | none => (st, false)
  | some sid =>
    if sid = "" then (st, false)
    else
      let before := st.objects.length
      let objects := st.objects.filter (fun o => o.id != sid)
      let after := objects.length
      let sel : Option String :=
        match objects with
        | [] => none
        | o :: _ => some o.id
      ({ objects := objects, selected_id := sel }, decide (after < before))

/-- The `for` loop of `move_selected`: update the first object whose id
matches and report whether a match was found. -/
def moveFirst (sid : String) (lat lon : ℝ) : List CityObject → List CityObject × Bool
  | [] => ([], false)
  | o :: rest =>
    if o.id = sid then ({ o with lat := lat, lon := lon } :: rest, true)
    else
      let r := moveFirst sid lat lon rest
      (o :: r.1, r.2)

/-- `move_selected` from the source.  `if not sid` fires for an unset id and
for the empty string. -/
def move_selected (st : RegState) (lat lon : ℝ) : RegState × Bool :=
  match st.selected_id with
  | none => (st, false)
  | some sid =>
    if sid = "" then (st, false)
    else
      let r := moveFirst sid lat lon st.objects
      ({ objects := r.1, selected_id := st.selected_id }, r.2)

/-- The registry selection invariant of the data model: the selected
identifier, when set, references an object present in the sequence. -/
def SelInvariant (st : RegState) : Prop :=
  ∀ sid, st.selected_id = some sid → ∃ o ∈ st.objects, o.id = sid

end

lemma haversine_self (lat lon : ℝ) : haversine_km lat lon lat lon = 0 := by
  simp [haversine_km, radians, sub_self, Real.arcsin_zero]

lemma haversine_symm (lat1 lon1 lat2 lon2 : ℝ) :
    haversine_km lat1 lon1 lat2 lon2 = haversine_km lat2 lon2 lat1 lon1 := by
  have key :
      Real.sin ((lat1 - lat2) * (Real.pi / 180) / 2) ^ 2
        + Real.cos (lat2 * (Real.pi / 180)) * Real.cos (lat1 * (Real.pi / 180))
          * Real.sin ((lon1 - lon2) * (Real.pi / 180) / 2) ^ 2
      = Real.sin ((lat2 - lat1) * (Real.pi / 180) / 2) ^ 2
        + Real.cos (lat1 * (Real.pi / 180)) * Real.cos (lat2 * (Real.pi / 180))
          * Real.sin ((lon2 - lon1) * (Real.pi / 180) / 2) ^ 2 := by
    rw [show (lat1 - lat2) * (Real.pi / 180) / 2 = -((lat2 - lat1) * (Real.pi / 180) / 2) by ring,
        show (lon1 - lon2) * (Real.pi / 180) / 2 = -((lon2 - lon1) * (Real.pi / 180) / 2) by ring,
        Real.sin_neg, Real.sin_neg]
    ring
  simp only [haversine_km, radians]
  rw [key]

lemma mem_withinRadius (lat lon r : ℝ) (objs : List CityObject) (o : CityObject) (d : ℝ) :
    (o, d) ∈ withinRadius lat lon r objs ↔
      o ∈ objs ∧ d = haversine_km lat lon o.lat o.lon ∧ d ≤ r := by
  induction objs with
  | nil => simp [withinRadius]
  | cons a rest ih =>
    simp only [withinRadius]
    split
    · rename_i hcond
      simp only [List.mem_cons, Prod.mk.injEq, ih]
      constructor
      · rintro (⟨rfl, rfl⟩ | ⟨h1, h2, h3⟩)
        · exact ⟨Or.inl rfl, rfl, hcond⟩
        · exact ⟨Or.inr h1, h2, h3⟩
      · rintro ⟨rfl | h1, h2, h3⟩
        · exact Or.inl ⟨rfl, h2⟩
        · exact Or.inr ⟨h1, h2, h3⟩
    · rename_i hcond
      rw [ih]
      constructor
      · rintro ⟨h1, h2, h3⟩
        exact ⟨List.mem_cons_of_mem _ h1, h2, h3⟩
      · rintro ⟨h1, h2, h3⟩
        rcases List.mem_cons.mp h1 with rfl | h1'
        · exact absurd (h2 ▸ h3) hcond
        · exact ⟨h1', h2, h3⟩

lemma mem_around (lat lon : ℝ) (objs : List CityObject) (r : ℝ) (o : CityObject) (d : ℝ) :
    (o, d) ∈ (analyze_perimeter lat lon objs r).around ↔
      o ∈ objs ∧ d = haversine_km lat lon o.lat o.lon ∧ d ≤ r := by
  simp only [analyze_perimeter, List.mem_insertionSort]
  exact mem_withinRadius lat lon r objs o d

/-- C9: the great-circle distance function satisfies `distance(A, A) = 0` for
every coordinate `A` and is symmetric: `distance(A, B) = distance(B, A)`. -/
theorem haversine_zero_self_and_symm :
    (∀ lat lon : ℝ, haversine_km lat lon lat lon = 0) ∧
      (∀ lat1 lon1 lat2 lon2 : ℝ,
        haversine_km lat1 lon1 lat2 lon2 = haversine_km lat2 lon2 lat1 lon1) :=
  ⟨haversine_self, haversine_symm⟩

/-- C2: for every category and coordinate, `evaluate_location` on an empty
list of other objects returns exactly one supporting statement (the fixed
first-point message) and an empty concerning list. -/
theorem evaluate_location_empty_registry (t : String) (lat lon : ℝ) :
    evaluate_location t lat lon [] = ([first_point_msg], []) := rfl

/-- C5: the perimeter analysis always satisfies
`school_gap = 0.25 * residents - school_capacity` exactly. -/
theorem school_gap_formula (lat lon : ℝ) (objs : List CityObject) (r : ℝ) :
    (analyze_perimeter lat lon objs r).school_gap
      = 0.25 * (analyze_perimeter lat lon objs r).residents
        - (analyze_perimeter lat lon objs r).school_capacity := by
  simp only [analyze_perimeter]
  ring

/-- C6: the `around` list of `analyze_perimeter` contains exactly the objects
whose great-circle distance to the center is at most the radius, each paired
with its distance, and is sorted in ascending order of distance. -/
theorem around_exactly_within_radius_and_sorted (lat lon : ℝ) (objs : List CityObject) (r : ℝ) :
    (∀ o d, (o, d) ∈ (analyze_perimeter lat lon objs r).around ↔
        o ∈ objs ∧ d = haversine_km lat lon o.lat o.lon ∧ d ≤ r) ∧
      (analyze_perimeter lat lon objs r).around.Sorted distLE := by
  refine ⟨fun o d => mem_around lat lon objs r o d, ?_⟩
  simp only [analyze_perimeter]
  exact List.sorted_insertionSort distLE _

/-- C10: the perimeter radius boundary is inclusive — an object whose distance
to the center equals the radius appears in the `around` list and is counted in
the per-category aggregates. -/
theorem perimeter_boundary_inclusive (lat lon r : ℝ) (objs : List CityObject) (o : CityObject)
    (ho : o ∈ objs) (hd : haversine_km lat lon o.lat o.lon = r) :
    (o, r) ∈ (analyze_perimeter lat lon objs r).around ∧
      0 < (analyze_perimeter lat lon objs r).counts o.obj_type := by
  refine ⟨(mem_around lat lon objs r o r).mpr ⟨ho, hd.symm, le_refl r⟩, ?_⟩
  simp only [analyze_perimeter]
  rw [List.countP_pos_iff]
  refine ⟨(o, r), (mem_withinRadius lat lon r objs o r).mpr ⟨ho, hd.symm, le_refl r⟩, ?_⟩
  simp

/-- Witness for C10 at a concrete input: a park placed exactly at the center,
radius 0, so its distance equals the radius. -/
theorem perimeter_boundary_inclusive_witness :
    (((⟨"a", "Парк", 0, 0, []⟩ : CityObject) ∈ ([⟨"a", "Парк", 0, 0, []⟩] : List CityObject)) ∧
        haversine_km 0 0 (⟨"a", "Парк", 0, 0, []⟩ : CityObject).lat
          (⟨"a", "Парк", 0, 0, []⟩ : CityObject).lon = 0) ∧
      (((⟨"a", "Парк", 0, 0, []⟩ : CityObject), (0 : ℝ)) ∈
          (analyze_perimeter 0 0 [⟨"a", "Парк", 0, 0, []⟩] 0).around ∧
        0 < (analyze_perimeter 0 0 [⟨"a", "Парк", 0, 0, []⟩] 0).counts
          (⟨"a", "Парк", 0, 0, []⟩ : CityObject).obj_type) :=
  ⟨⟨by simp, haversine_self 0 0⟩,
    perimeter_boundary_inclusive 0 0 0 [⟨"a", "Парк", 0, 0, []⟩] ⟨"a", "Парк", 0, 0, []⟩
      (by simp) (haversine_self 0 0)⟩

/-- C1 counterexample: with an empty list of other objects the empty-registry
short-circuit fires first, so the industry evaluation returns only the fixed
first-point message — neither the jobs-support statement nor the air-quality
concern appears. -/
theorem industry_empty_counterexample :
    ¬ (jobs_msg ∈ (evaluate_location "Промышленный объект" 49.9483 82.6285 []).1 ∧
        air_quality_msg ∈ (evaluate_location "Промышленный объект" 49.9483 82.6285 []).2) := by
  intro h
  have he : evaluate_location "Промышленный объект" 49.9483 82.6285 [] =
      ([first_point_msg], []) := rfl
  rw [he] at h
  exact List.not_mem_nil air_quality_msg h.2

/-- C1 (amended): for category industry and a NONEMPTY list of other objects,
the output contains the fixed jobs-support statement in the supporting list
and the fixed air-quality concern in the concerning list, regardless of which
neighbors exist. -/
theorem industry_jobs_and_air (lat lon : ℝ) (objs : List CityObject) (h : objs ≠ []) :
    jobs_msg ∈ (evaluate_location "Промышленный объект" lat lon objs).1 ∧
      air_quality_msg ∈ (evaluate_location "Промышленный объект" lat lon objs).2 := by
  obtain ⟨a, rest, rfl⟩ : ∃ a rest, objs = a :: rest := by
    cases objs with
    | nil => exact absurd rfl h
    | cons a rest => exact ⟨a, rest, rfl⟩
  simp only [evaluate_location, List.isEmpty_cons, Bool.false_eq_true, if_false]
  split
  · rename_i hc; exact absurd hc (by decide)
  split
  · rename_i hc; exact absurd hc (by decide)
  split
  · rename_i hc; exact absurd hc (by decide)
  split
  · split <;> split <;> simp [jobs_msg, air_quality_msg]
  · rename_i hc; exact absurd trivial hc

/-- Witness for C1 (amended) at a concrete nonempty neighbor list. -/
theorem industry_jobs_and_air_witness :
    (([⟨"a", "Парк", (0 : ℝ), 0, []⟩] : List CityObject) ≠ []) ∧
      (jobs_msg ∈ (evaluate_location "Промышленный объект" 0 0
          [⟨"a", "Парк", 0, 0, []⟩]).1 ∧
        air_quality_msg ∈ (evaluate_location "Промышленный объект" 0 0
          [⟨"a", "Парк", 0, 0, []⟩]).2) :=
  ⟨by simp, industry_jobs_and_air 0 0 [⟨"a", "Парк", 0, 0, []⟩] (by simp)⟩

lemma filter_ne_length (sid : String) :
    ∀ l : List CityObject, (l.map CityObject.id).Nodup → (∃ o ∈ l, o.id = sid) →
      (l.filter (fun o => o.id != sid)).length + 1 = l.length := by
  intro l
  induction l with
  | nil =>
    rintro _ ⟨o, ho, _⟩
    exact absurd ho (List.not_mem_nil o)
  | cons a rest ih =>
    intro hnd hex
    rw [List.map_cons, List.nodup_cons] at hnd
    by_cases ha : a.id = sid
    · have hpa : (a.id != sid) = false := by simp [ha]
      rw [List.filter_cons, hpa]
      simp only [Bool.false_eq_true, if_false]
      have hrest : ∀ o ∈ rest, (o.id != sid) = true := by
        intro o ho
        simp only [bne_iff_ne, ne_eq]
        intro heq
        have hmem : o.id ∈ rest.map CityObject.id := List.mem_map_of_mem CityObject.id ho
        rw [heq, ← ha] at hmem
        exact hnd.1 hmem
      rw [List.filter_eq_self.mpr hrest]
      simp
    · have hpa : (a.id != sid) = true := by simp [bne_iff_ne, ha]
      rw [List.filter_cons, hpa]
      simp only [if_true]
      have hex' : ∃ o ∈ rest, o.id = sid := by
        rcases hex with ⟨o, ho, hid⟩
        rcases List.mem_cons.mp ho with rfl | h2
        · exact absurd hid ha
        · exact ⟨o, h2, hid⟩
      have := ih hnd.2 hex'
      simp only [List.length_cons]
      omega

lemma moveFirst_found (sid : String) (lat lon : ℝ) :
    ∀ l : List CityObject, (∃ o ∈ l, o.id = sid) → (moveFirst sid lat lon l).2 = true := by
  intro l
  induction l with
  | nil =>
    rintro ⟨o, ho, _⟩
    exact absurd ho (List.not_mem_nil o)
  | cons a rest ih =>
    rintro ⟨o, ho, hid⟩
    simp only [moveFirst]
    by_cases ha : a.id = sid
    · rw [if_pos ha]
    · rw [if_neg ha]
      refine ih ⟨o, ?_, hid⟩
      rcases List.mem_cons.mp ho with rfl | h2
      · exact absurd hid ha
      · exact h2

lemma moveFirst_map_id (sid : String) (lat lon : ℝ) :
    ∀ l : List CityObject, (moveFirst sid lat lon l).1.map CityObject.id = l.map CityObject.id := by
  intro l
  induction l with
  | nil => rfl
  | cons a rest ih =>
    simp only [moveFirst]
    by_cases ha : a.id = sid
    · rw [if_pos ha]
      simp
    · rw [if_neg ha]
      simp only [List.map_cons]
      rw [ih]

/-- C7: when nothing is selected, Delete returns false and leaves the object
sequence and the selection unchanged. -/
theorem delete_selected_noop_when_unselected (st : RegState) (h : st.selected_id = none) :
    delete_selected st = (st, false) := by
  simp [delete_selected, h]

/-- Witness for C7 at the empty registry with no selection. -/
theorem delete_selected_noop_witness :
    (RegState.mk [] none).selected_id = none ∧
      delete_selected ⟨[], none⟩ = (⟨[], none⟩, false) :=
  ⟨rfl, delete_selected_noop_when_unselected ⟨[], none⟩ rfl⟩

/-- C3: on a well-formed registry state (unique, nonempty identifiers as
produced by `new_id`) in which an object is selected, Delete removes exactly
that one object, returns true, and reselects the first remaining object (or
clears the selection when the sequence became empty). -/
theorem delete_selected_spec (st : RegState) (sid : String)
    (hnd : (st.objects.map CityObject.id).Nodup)
    (hids : ∀ o ∈ st.objects, o.id ≠ "")
    (hsel : st.selected_id = some sid)
    (hex : ∃ o ∈ st.objects, o.id = sid) :
    (delete_selected st).2 = true ∧
      List.Sublist (delete_selected st).1.objects st.objects ∧
      (delete_selected st).1.objects.length + 1 = st.objects.length ∧
      (∀ o ∈ st.objects, o.id ≠ sid → o ∈ (delete_selected st).1.objects) ∧
      (∀ o ∈ (delete_selected st).1.objects, o.id ≠ sid) ∧
      (delete_selected st).1.selected_id =
        ((delete_selected st).1.objects.head?).map CityObject.id := by
  have hsid : sid ≠ "" := by
    rcases hex with ⟨o, ho, hid⟩
    exact hid ▸ hids o ho
  have hlen := filter_ne_length sid st.objects hnd hex
  simp only [delete_selected, hsel, hsid, if_neg, ne_eq, not_false_eq_true, if_false,
    decide_eq_true_eq]
  refine ⟨by omega, List.filter_sublist _, hlen, ?_, ?_, ?_⟩
  · intro o ho hne2
    exact List.mem_filter.mpr ⟨ho, by simpa [bne_iff_ne] using hne2⟩
  · intro o ho
    have hmem := List.mem_filter.mp ho
    simpa [bne_iff_ne] using hmem.2
  · cases hF : st.objects.filter (fun o => o.id != sid) with
    | nil => simp [hF]
    | cons b rest => simp [hF]

/-- Witness for C3: a one-object registry with that object selected. -/
theorem delete_selected_spec_witness :
    ((([⟨"a", "Парк", (0 : ℝ), 0, []⟩] : List CityObject).map CityObject.id).Nodup ∧
        (∀ o ∈ ([⟨"a", "Парк", (0 : ℝ), 0, []⟩] : List CityObject), o.id ≠ "") ∧
        (∃ o ∈ ([⟨"a", "Парк", (0 : ℝ), 0, []⟩] : List CityObject), o.id = "a")) ∧
      ((delete_selected ⟨[⟨"a", "Парк", 0, 0, []⟩], some "a"⟩).2 = true ∧
        List.Sublist (delete_selected ⟨[⟨"a", "Парк", 0, 0, []⟩], some "a"⟩).1.objects
          [⟨"a", "Парк", 0, 0, []⟩] ∧
        (delete_selected ⟨[⟨"a", "Парк", 0, 0, []⟩], some "a"⟩).1.objects.length + 1 = 1 ∧
        (∀ o ∈ ([⟨"a", "Парк", (0 : ℝ), 0, []⟩] : List CityObject), o.id ≠ "a" →
          o ∈ (delete_selected ⟨[⟨"a", "Парк", 0, 0, []⟩], some "a"⟩).1.objects) ∧
        (∀ o ∈ (delete_selected ⟨[⟨"a", "Парк", 0, 0, []⟩], some "a"⟩).1.objects, o.id ≠ "a") ∧
        (delete_selected ⟨[⟨"a", "Парк", 0, 0, []⟩], some "a"⟩).1.selected_id =
          ((delete_selected ⟨[⟨"a", "Парк", 0, 0, []⟩], some "a"⟩).1.objects.head?).map
            CityObject.id) :=
  ⟨⟨by simp, by simp, ⟨⟨"a", "Парк", 0, 0, []⟩, by simp, rfl⟩⟩,
    delete_selected_spec ⟨[⟨"a", "Парк", 0, 0, []⟩], some "a"⟩ "a"
      (by simp) (by simp) rfl ⟨⟨"a", "Парк", 0, 0, []⟩, by simp, rfl⟩⟩

/-- C4: on a registry state satisfying the data-model invariant (the selection,
when set, references an existing object; identifiers are nonempty as produced
by `new_id`), Move returns false exactly when nothing is selected and true
whenever a selection is set. -/
theorem move_selected_true_iff (st : RegState) (lat lon : ℝ)
    (hids : ∀ o ∈ st.objects, o.id ≠ "")
    (hinv : SelInvariant st) :
    ((move_selected st lat lon).2 = true ↔ st.selected_id ≠ none) := by
  cases hsel : st.selected_id with
  | none => simp [move_selected, hsel]
  | some sid =>
    obtain ⟨o, ho, hid⟩ := hinv sid hsel
    have hsid : sid ≠ "" := hid ▸ hids o ho
    have hfound := moveFirst_found sid lat lon st.objects ⟨o, ho, hid⟩
    simp [move_selected, hsel, hsid, hfound]

/-- Witness for C4 at the empty registry with no selection. -/
theorem move_selected_true_iff_witness :
    ((∀ o ∈ (RegState.mk [] none).objects, o.id ≠ "") ∧ SelInvariant ⟨[], none⟩) ∧
      ((move_selected ⟨[], none⟩ 0 0).2 = true ↔ (RegState.mk [] none).selected_id ≠ none) :=
  ⟨⟨by simp, fun _ hs => Option.noConfusion hs⟩,
    move_selected_true_iff ⟨[], none⟩ 0 0 (by simp) (fun _ hs => Option.noConfusion hs)⟩

/-- C8: Add, Delete and Move each preserve the selection invariant — the
selected identifier, when set, references an object present in the registry
sequence (at most one identifier is selected by construction, the selection
being a single optional value). -/
theorem registry_ops_preserve_selection (st : RegState) (i t : String) (lat lon : ℝ)
    (h : SelInvariant st) :
    SelInvariant (add_object st i t lat lon) ∧
      SelInvariant (delete_selected st).1 ∧
      SelInvariant (move_selected st lat lon).1 := by
  refine ⟨?_, ?_, ?_⟩
  · intro sid hs
    simp only [add_object] at hs
    obtain rfl : i = sid := by simpa using hs
    exact ⟨{ id := i, obj_type := t, lat := lat, lon := lon, params := DEFAULT_PARAMS t },
      by simp [add_object], rfl⟩
  · cases hsel : st.selected_id with
    | none =>
      have hd : delete_selected st = (st, false) := by simp [delete_selected, hsel]
      rw [hd]
      exact h
    | some sid =>
      by_cases hsid : sid = ""
      · have hd : delete_selected st = (st, false) := by simp [delete_selected, hsel, hsid]
        rw [hd]
        exact h
      · have hd : (delete_selected st).1 =
            { objects := st.objects.filter (fun o => o.id != sid)
              selected_id :=
                match st.objects.filter (fun o => o.id != sid) with
                | [] => none
                | o :: _ => some o.id } := by
          simp [delete_selected, hsel, hsid]
        rw [hd]
        intro s hs
        cases hF : st.objects.filter (fun o => o.id != sid) with
        | nil =>
          rw [hF] at hs
          simp at hs
        | cons b rest =>
          rw [hF] at hs
          simp only [Option.some.injEq] at hs
          subst hs
          exact ⟨b, by simp [hF], rfl⟩
  · cases hsel : st.selected_id with
    | none =>
      have hm : move_selected st lat lon = (st, false) := by simp [move_selected, hsel]
      rw [hm]
      exact h
    | some sid =>
      by_cases hsid : sid = ""
      · have hm : move_selected st lat lon = (st, false) := by simp [move_selected, hsel, hsid]
        rw [hm]
        exact h
      · have hm : (move_selected st lat lon).1 =
            { objects := (moveFirst sid lat lon st.objects).1, selected_id := some sid } := by
          simp [move_selected, hsel, hsid]
        rw [hm]
        intro s hs
        obtain rfl : sid = s := by simpa using hs
        obtain ⟨o, ho, hid⟩ := h sid hsel
        have hmem : sid ∈ (moveFirst sid lat lon st.objects).1.map CityObject.id := by
          rw [moveFirst_map_id, ← hid]
          exact List.mem_map_of_mem CityObject.id ho
        obtain ⟨o', ho', hid'⟩ := List.mem_map.mp hmem
        exact ⟨o', ho', hid'⟩

/-- Witness for C8 at the empty registry with no selection. -/
theorem registry_ops_preserve_selection_witness :
    SelInvariant ⟨[], none⟩ ∧
      (SelInvariant (add_object ⟨[], none⟩ "b" "Парк" 0 0) ∧
        SelInvariant (delete_selected ⟨[], none⟩).1 ∧
        SelInvariant (move_selected ⟨[], none⟩ 0 0).1) :=
  ⟨fun _ hs => Option.noConfusion hs,
    registry_ops_preserve_selection ⟨[], none⟩ "b" "Парк" 0 0 (fun _ hs => Option.noConfusion hs)⟩

end CityTwin
